import Mathlib

/-!
Shallow embedding of `main.py` of the rubbish-day repository.

The program fetches a municipal collection-search HTML page, parses a
collection date and a list of bin labels out of it, and drives a two-pin
LED depending on how close the collection is and which bins are listed.

Modelling conventions:
* The BeautifulSoup queries `soup.find("p", class_="collection-date")` and
  `soup.find("ul", class_="collection-items")` are external-library calls;
  the HTML input is therefore modelled at the level of their results
  (`HtmlDoc`): an optional tag for each query.  A BeautifulSoup `Tag` is
  falsy in Python exactly when `len(tag.contents) == 0`, so each modelled
  tag records its Python truthiness (`nonempty`) next to the data the code
  reads from it (its `.text`, respectively the texts of its `li` items).
* `datetime` values are modelled as records of year/month/day/hour/minute/
  second; `datetime` subtraction and `timedelta` comparison are modelled by
  mapping to a second count via the proleptic-Gregorian ordinal, exactly the
  formula of `datetime.toordinal`.  "now" is an integer second count.
* Python exceptions become `Except` values; GPIO writes and the outbound
  network call become an explicit event trace.
-/

/-- `BIN_COLLECTION_TIME = 7` (7.00 AM), from `main.py`. -/
def BIN_COLLECTION_TIME : Nat := 7

/-- `REMIND_HOURS_BEFORE = 16`, from `main.py`. -/
def REMIND_HOURS_BEFORE : Nat := 16

/-- The `Bin` enum of `main.py` (`RUBBISH = 0`, `GLASS_CRATE = 1`,
`RECYCLING_BAG = 2`).  Note that plain `enum.Enum` members are always truthy
in Python, even `RUBBISH` whose value is `0`, so `if not bin_type` in
`parse_response` fires only when the dictionary lookup returned `None`. -/
inductive Bin where
  | RUBBISH
  | GLASS_CRATE
  | RECYCLING_BAG
deriving DecidableEq, Repr

/-- A `datetime.datetime` value as far as this program observes it. -/
structure PyDateTime where
  year : Nat
  month : Nat
  day : Nat
  hour : Nat
  minute : Nat
  second : Nat
deriving DecidableEq, Repr

/-- The `RubbishDay` dataclass: next rubbish-day date and bin types. -/
structure RubbishDay where
  date : PyDateTime
  bins : List Bin
deriving DecidableEq, Repr

/-- Result of `soup.find("p", attrs={"class": "collection-date"})` when an
element was found: its Python truthiness and its `.text`. -/
structure DateTag where
  nonempty : Bool
  text : String
deriving DecidableEq, Repr

/-- Result of `soup.find("ul", attrs={"class": "collection-items"})` when an
element was found: its Python truthiness and the `.text` of each `li`
returned by `find_all("li")`, in document order. -/
structure ItemsTag where
  nonempty : Bool
  liTexts : List String
deriving DecidableEq, Repr

/-- The HTML input, modelled at the level of the two BeautifulSoup queries
`parse_response` performs (`none` = the element is absent). -/
structure HtmlDoc where
  collectionDate : Option DateTag
  collectionItems : Option ItemsTag
deriving DecidableEq, Repr

/-- The `collection_map` dictionary of `parse_response`. -/
def collection_map : String → Option Bin
  | "Rubbish" => some Bin.RUBBISH
  | "Glass crate" => some Bin.GLASS_CRATE
  | "Wheelie bin or recycling bags" => some Bin.RECYCLING_BAG
  | _ => none

/-- `text.replace('\n', '').replace(' ', '').strip('\x7b'\r'\x7d')` followed by
`.split('(')[0]`, exactly as line 96-97 of `main.py` do it: ALL newlines and
ALL spaces are removed, but carriage returns are stripped only from the two
ends of the string (`str.strip` never touches interior characters), and
everything from the first `(` on is discarded. -/
def stripDateText (t : String) : String :=
  let noNl := t.data.filter (fun c => c ≠ '\n')
  let noSp := noNl.filter (fun c => c ≠ ' ')
  let stripped := ((noSp.dropWhile (fun c => c = '\r')).reverse.dropWhile
    (fun c => c = '\r')).reverse
  String.mk (stripped.takeWhile (fun c => c ≠ '('))

/-- The date normalisation as the specification STATES it (for comparison
with `stripDateText`): strip ALL whitespace and ALL carriage-return
characters, then discard everything from the first `(` onward. -/
def claimNormalizeDate (t : String) : String :=
  String.mk ((t.data.filter (fun c => ¬ c.isWhitespace)).takeWhile
    (fun c => c ≠ '('))

/-- Full weekday names recognised by `%A` (C locale). -/
def weekdayNames : List String :=
  ["Monday", "Tuesday", "Wednesday", "Thursday", "Friday", "Saturday",
   "Sunday"]

/-- Full month names recognised by `%B` (C locale); position + 1 is the
month number. -/
def monthNames : List String :=
  ["January", "February", "March", "April", "May", "June", "July", "August",
   "September", "October", "November", "December"]

/-- Case-insensitive prefix test on character lists (`strptime` compiles its
name patterns with `re.IGNORECASE`). -/
def startsWithCI (s : List Char) (name : List Char) : Bool :=
  (s.take name.length).map Char.toLower == name.map Char.toLower

/-- Match one name of `names` case-insensitively at the head of `s`; return
the 1-based index of the name matched and the remainder.  No recognised
weekday or month name is a prefix of another, so first match is the match. -/
def matchNameCI (s : List Char) : List String → Option (Nat × List Char)
  | [] => none
  | n :: rest =>
    if startsWithCI s n.data then
      some (1, s.drop n.data.length)
    else
      match matchNameCI s rest with
      | some (i, r) => some (i + 1, r)
      | none => none

/-- The day-of-month pattern of `%d`, `3[01]|[12]\d|0[1-9]|[1-9]`: two
digits forming a number 1..31, or else a single nonzero digit. -/
def parseDay : List Char → Option (Nat × List Char)
  | c1 :: c2 :: rest =>
    if c1.isDigit && c2.isDigit then
      let n := (c1.toNat - 48) * 10 + (c2.toNat - 48)
      if 1 ≤ n ∧ n ≤ 31 then some (n, rest)
      else if c1.isDigit && c1 ≠ '0' then some (c1.toNat - 48, c2 :: rest)
      else none
    else if c1.isDigit && c1 ≠ '0' then some (c1.toNat - 48, c2 :: rest)
    else none
  | [c1] =>
    if c1.isDigit && c1 ≠ '0' then some (c1.toNat - 48, []) else none
  | [] => none

/-- Day count of each month in 1900 (`strptime` defaults the year to 1900,
which is not a leap year, and `datetime.strptime` validates the day against
that year when it builds the result). -/
def daysInMonth1900 : Nat → Nat
  | 1 => 31 | 2 => 28 | 3 => 31 | 4 => 30 | 5 => 31 | 6 => 30
  | 7 => 31 | 8 => 31 | 9 => 30 | 10 => 31 | 11 => 30 | 12 => 31
  | _ => 0

/-- `datetime.strptime(s, r'%A,%d%B')`, reduced to what the caller uses: the
month and day on success, `none` on `ValueError`.  The whole input must be
consumed (`strptime` raises "unconverted data remains" otherwise), the
names are matched case-insensitively, and the day must exist in the
defaulted year 1900. -/
def strptimeAdB (s : String) : Option (Nat × Nat) :=
  match matchNameCI s.data weekdayNames with
  | none => none
  | some (_, r1) =>
    match r1 with
    | ',' :: r2 =>
      match parseDay r2 with
      | none => none
      | some (d, r3) =>
        match matchNameCI r3 monthNames with
        | none => none
        | some (m, r4) =>
          if r4 = [] ∧ d ≤ daysInMonth1900 m then some (m, d) else none
    | _ => none

/-- The exceptions `parse_response` can raise. -/
inductive ParseErr where
  /-- `ValueError("Could not find collection date in response!")` -/
  | missingDate
  /-- `ValueError("Could not find collection items in response!")` -/
  | missingItems
  /-- `ValueError` out of `datetime.strptime` -/
  | badDate
  /-- `AttributeError("Unknown bin type: ...")`; the payload is what
  `"{}".format(bin_type)` interpolates — the lookup result `None`, since
  the code formats the failed lookup result, not the label. -/
  | unknownBinType (msg : String)
deriving DecidableEq, Repr

/-- The `for li_item in ...find_all('li')` loop of `parse_response`: map
each item text through `collection_map`, raising on the first unknown one,
appending in order otherwise. -/
def mapBins : List String → Except ParseErr (List Bin)
  | [] => Except.ok []
  | t :: rest =>
    match collection_map t with
    | none => Except.error (ParseErr.unknownBinType "None")
    | some b =>
      match mapBins rest with
      | Except.error e => Except.error e
      | Except.ok bs => Except.ok (b :: bs)

/-- `parse_response(html)` of `main.py`, lines 74-113.  `nowYear` is
`datetime.now().year` at parse time.  The checks `if not ...content` treat
an absent element and a falsy (empty) element alike. -/
def parse_response (nowYear : Nat) (doc : HtmlDoc) :
    Except ParseErr RubbishDay :=
  match doc.collectionDate with
  | none => Except.error ParseErr.missingDate
  | some dtag =>
    if dtag.nonempty = false then Except.error ParseErr.missingDate
    else
      match doc.collectionItems with
      | none => Except.error ParseErr.missingItems
      | some itag =>
        if itag.nonempty = false then Except.error ParseErr.missingItems
        else
          match strptimeAdB (stripDateText dtag.text) with
          | none => Except.error ParseErr.badDate
          | some (m, d) =>
            match mapBins itag.liTexts with
            | Except.error e => Except.error e
            | Except.ok bins =>
              Except.ok
                { date :=
                    { year := nowYear, month := m, day := d,
                      hour := BIN_COLLECTION_TIME, minute := 0, second := 0 },
                  bins := bins }

/-- Whether year `y` is a leap year (proleptic Gregorian, as `datetime`). -/
def isLeap (y : Nat) : Bool :=
  y % 4 == 0 && (y % 100 != 0 || y % 400 == 0)

/-- Day count of month `m` in year `y`. -/
def daysInMonth (y m : Nat) : Nat :=
  if m = 2 then (if isLeap y then 29 else 28) else daysInMonth1900 m

/-- Days in year `y` strictly before month `m`. -/
def daysBeforeMonth (y m : Nat) : Nat :=
  (List.range (m - 1)).foldl (fun acc i => acc + daysInMonth y (i + 1)) 0

/-- `datetime.toordinal()`: day number of `y-m-d` in the proleptic Gregorian
calendar, day 1 being 0001-01-01. -/
def toOrdinal (y m d : Nat) : Nat :=
  365 * (y - 1) + (y - 1) / 4 - (y - 1) / 100 + (y - 1) / 400
    + daysBeforeMonth y m + d

/-- Second count of a `datetime`; differences of these are exactly what
`datetime` subtraction yields (as a `timedelta`), so `a - b >
timedelta(hours=h)` holds iff `a.toSec - b.toSec > h * 3600`. -/
def PyDateTime.toSec (dt : PyDateTime) : Int :=
  ((toOrdinal dt.year dt.month dt.day) * 86400
    + dt.hour * 3600 + dt.minute * 60 + dt.second : Nat)

/-- One GPIO action of `LEDController`: `turn_off`, `turn_red` (red HIGH,
green LOW), `turn_green` (red LOW, green HIGH). -/
inductive LedAction where
  | off
  | red
  | green
deriving DecidableEq, Repr

/-- `AssertionError("Unreachable")` of `set_led_appropriately`. -/
inductive PolicyErr where
  | unreachable
deriving DecidableEq, Repr

/-- `set_led_appropriately(rubbish_day)` of `main.py`, lines 136-155, with
`now` the current time in seconds.  Returns the boolean result (or the
raised error) together with the LED actions performed, in order: the
controller is switched off first on every path, then red for a recycling
bag, green for a glass crate, nothing more when bin day is still more than
`REMIND_HOURS_BEFORE` hours away, and the neither-bin case raises after the
switch-off. -/
def set_led_appropriately (rd : RubbishDay) (now : Int) :
    Except PolicyErr Bool × List LedAction :=
  let time_until_bin : Int := rd.date.toSec - now
  if time_until_bin > (REMIND_HOURS_BEFORE : Int) * 3600 then
    (Except.ok false, [LedAction.off])
  else if Bin.RECYCLING_BAG ∈ rd.bins then
    (Except.ok true, [LedAction.off, LedAction.red])
  else if Bin.GLASS_CRATE ∈ rd.bins then
    (Except.ok true, [LedAction.off, LedAction.green])
  else
    (Except.error PolicyErr.unreachable, [LedAction.off])

/-- The outcome of the single `requests.post` call of `query_rubbish_day`:
either response bytes (modelled as `HtmlDoc`, see above) with `response.ok`
true, or a non-ok response. -/
inductive FetchResult where
  | ok (doc : HtmlDoc)
  | transportError
deriving DecidableEq, Repr

/-- Errors that can escape `main`. -/
inductive MainErr where
  /-- `RuntimeError("Make sure STREET_ID and STREET_NAME are defined!")` -/
  | config
  /-- `RuntimeError("Response not ok! ...")` from `query_rubbish_day` -/
  | transport
  /-- an exception out of `parse_response` -/
  | parse (e : ParseErr)
  /-- an exception out of `set_led_appropriately` -/
  | policy (e : PolicyErr)
deriving DecidableEq, Repr

/-- Observable side effects of a run: the one outbound network call, and
each GPIO write. -/
inductive Event where
  | fetchCall
  | led (a : LedAction)
deriving DecidableEq, Repr

/-- Python truthiness of an `os.getenv` result: `None` and the empty string
are falsy, every other string is truthy. -/
def truthyEnv : Option String → Bool
  | none => false
  | some s => !s.isEmpty

namespace Prog

/-- `main()` of `main.py`, lines 158-166, with its ambient inputs made
explicit: the two environment variables, the outcome the one network call
would have, the current year and the current time.  Produces the returned
exit code (or the raised error) and the event trace of the run.  The
`all(env for env in (STREET_ID, STREET_NAME))` guard runs before
`query_rubbish_day`, so a falsy variable means no `fetchCall` is emitted. -/
def main (streetId streetName : Option String) (fr : FetchResult)
    (nowYear : Nat) (now : Int) : Except MainErr Nat × List Event :=
  if !(truthyEnv streetId && truthyEnv streetName) then
    (Except.error MainErr.config, [])
  else
    match fr with
    | FetchResult.transportError =>
      (Except.error MainErr.transport, [Event.fetchCall])
    | FetchResult.ok doc =>
      match parse_response nowYear doc with
      | Except.error e =>
        (Except.error (MainErr.parse e), [Event.fetchCall])
      | Except.ok rd =>
        match set_led_appropriately rd now with
        | (Except.error e, tr) =>
          (Except.error (MainErr.policy e),
            Event.fetchCall :: tr.map Event.led)
        | (Except.ok changed, tr) =>
          (Except.ok (if changed then 0 else 1),
            Event.fetchCall :: tr.map Event.led)

end Prog

/-- The two GPIO output pins (`GPIO_PIN_RED = 17`, `GPIO_PIN_GREEN = 27`):
`true` = HIGH. -/
structure PinState where
  red : Bool
  green : Bool
deriving DecidableEq, Repr

/-- Effect of one `LEDController` method on the pins. -/
def applyLed (_p : PinState) : LedAction → PinState
  | LedAction.off => { red := false, green := false }
  | LedAction.red => { red := true, green := false }
  | LedAction.green => { red := false, green := true }

/-- Pin state after running a list of LED actions from `init` (the pins
keep their previous state across process runs). -/
def runLeds (init : PinState) (tr : List LedAction) : PinState :=
  tr.foldl applyLed init

/-- The LED actions of an event trace. -/
def ledTrace (events : List Event) : List LedAction :=
  events.filterMap (fun e =>
    match e with
    | Event.led a => some a
    | Event.fetchCall => none)

/-! ### Helper lemmas -/

/-- When every item text is a recognised label, the collection-items loop
succeeds, and the returned bins are exactly the images of the item texts
under `collection_map`. -/
theorem mapBins_ok_of_all (l : List String)
    (h : ∀ t ∈ l, (collection_map t).isSome) :
    ∃ bs, mapBins l = Except.ok bs ∧
      ∀ b, b ∈ bs ↔ ∃ t ∈ l, collection_map t = some b := by
  induction l with
  | nil => exact ⟨[], rfl, by simp⟩
  | cons t rest ih =>
    have ht : (collection_map t).isSome := h t (by simp)
    obtain ⟨b, hb⟩ := Option.isSome_iff_exists.mp ht
    obtain ⟨bs, hbs, hiff⟩ := ih (fun t' ht' => h t' (by simp [ht']))
    refine ⟨b :: bs, ?_, ?_⟩
    · unfold mapBins
      rw [hb, hbs]
    · intro b'
      simp only [List.mem_cons, hiff b']
      constructor
      · rintro (rfl | ⟨t', ht', hmap⟩)
        · exact ⟨t, Or.inl rfl, hb⟩
        · exact ⟨t', Or.inr ht', hmap⟩
      · rintro ⟨t', (rfl | ht'), hmap⟩
        · rw [hb] at hmap
          exact Or.inl (Option.some.inj hmap).symm
        · exact Or.inr ⟨t', ht', hmap⟩

/-- If some item text is not a recognised label, the collection-items loop
raises the unknown-bin-type error (formatting the `None` lookup result). -/
theorem mapBins_error_of_unknown (l : List String)
    (h : ∃ t ∈ l, collection_map t = none) :
    mapBins l = Except.error (ParseErr.unknownBinType "None") := by
  induction l with
  | nil => simp at h
  | cons t rest ih =>
    obtain ⟨t', ht', hnone⟩ := h
    rcases List.mem_cons.mp ht' with rfl | hmem
    · unfold mapBins
      rw [hnone]
    · cases hc : collection_map t with
      | none =>
        unfold mapBins
        rw [hc]
      | some b =>
        unfold mapBins
        rw [hc, ih ⟨t', hmem, hnone⟩]

/-- The collection-items loop never shrinks a non-empty item list to an
empty bin list. -/
theorem mapBins_ok_ne_nil (t : String) (rest : List String) (bs : List Bin)
    (h : mapBins (t :: rest) = Except.ok bs) : bs ≠ [] := by
  unfold mapBins at h
  cases hc : collection_map t with
  | none =>
    rw [hc] at h
    exact absurd h (by simp)
  | some b =>
    rw [hc] at h
    cases hr : mapBins rest with
    | error e =>
      rw [hr] at h
      exact absurd h (by simp)
    | ok bs' =>
      rw [hr] at h
      cases h
      simp

/-- Full characterisation of a successful `parse_response` run: both
elements are present and truthy, the normalised date text matches the
`strptime` pattern, every item label is recognised, and the result is built
from the parsed month/day, the current year, and the fixed collection
hour. -/
theorem parse_response_ok_iff (y : Nat) (doc : HtmlDoc) (rd : RubbishDay) :
    parse_response y doc = Except.ok rd ↔
      ∃ dtag itag m d bins,
        doc.collectionDate = some dtag ∧ dtag.nonempty = true ∧
        doc.collectionItems = some itag ∧ itag.nonempty = true ∧
        strptimeAdB (stripDateText dtag.text) = some (m, d) ∧
        mapBins itag.liTexts = Except.ok bins ∧
        rd = ⟨⟨y, m, d, BIN_COLLECTION_TIME, 0, 0⟩, bins⟩ := by
  obtain ⟨cd, ci⟩ := doc
  cases cd with
  | none => simp [parse_response]
  | some dtag =>
    cases hdn : dtag.nonempty with
    | false => simp [parse_response, hdn]
    | true =>
      cases ci with
      | none => simp [parse_response, hdn]
      | some itag =>
        cases hin : itag.nonempty with
        | false => simp [parse_response, hdn, hin]
        | true =>
          cases hmd : strptimeAdB (stripDateText dtag.text) with
          | none => simp [parse_response, hdn, hin, hmd]
          | some md =>
            obtain ⟨m, d⟩ := md
            cases hbins : mapBins itag.liTexts with
            | error e => simp [parse_response, hdn, hin, hmd, hbins]
            | ok bins =>
              simp only [parse_response, hdn, hin, hmd, hbins,
                Bool.true_eq_false, if_false, Option.some.injEq,
                Except.ok.injEq, FetchResult.ok.injEq]
              constructor
              · rintro rfl
                exact ⟨dtag, itag, m, d, bins, rfl, hdn, rfl, hin, hmd, hbins,
                  rfl⟩
              · rintro ⟨dtag', itag', m', d', bins', hd', hdn', hi', hin',
                  hmd', hbins', rfl⟩
                cases hd'
                cases hi'
                rw [hmd] at hmd'
                cases hmd'
                rw [hbins] at hbins'
                cases hbins'
                rfl

/-! ### Claim theorems -/

/-- C1: for every well-formed input whose collection-date element carries a
recognised date string and whose collection-items element carries a
non-empty list of items all of whose exact texts are recognised labels,
`parse_response` succeeds and the returned bins are exactly the `Bin`
values the fixed `collection_map` table assigns to those labels; in
particular `"Rubbish"` among the items puts `Bin.RUBBISH` in the bins. -/
theorem C1_parse_recognized_labels (y : Nat) (doc : HtmlDoc) (dtag : DateTag)
    (itag : ItemsTag) (m d : Nat)
    (hd : doc.collectionDate = some dtag) (hdn : dtag.nonempty = true)
    (hi : doc.collectionItems = some itag) (hin : itag.nonempty = true)
    (hdate : strptimeAdB (stripDateText dtag.text) = some (m, d))
    (_hne : itag.liTexts ≠ [])
    (hall : ∀ t ∈ itag.liTexts, (collection_map t).isSome) :
    ∃ rd, parse_response y doc = Except.ok rd ∧
      (∀ b, b ∈ rd.bins ↔ ∃ t ∈ itag.liTexts, collection_map t = some b) ∧
      ("Rubbish" ∈ itag.liTexts → Bin.RUBBISH ∈ rd.bins) := by
  obtain ⟨bins, hbins, hiff⟩ := mapBins_ok_of_all _ hall
  refine ⟨⟨⟨y, m, d, BIN_COLLECTION_TIME, 0, 0⟩, bins⟩, ?_, hiff, ?_⟩
  · exact (parse_response_ok_iff y doc _).mpr
      ⟨dtag, itag, m, d, bins, hd, hdn, hi, hin, hdate, hbins, rfl⟩
  · intro hr
    exact (hiff Bin.RUBBISH).mpr ⟨"Rubbish", hr, rfl⟩

/-- C1 witness: the fixture of the specification, parsed in 2024. -/
theorem C1_witness :
    ∃ rd, parse_response 2024
        ⟨some ⟨true, "Monday, 3 March (public holiday)"⟩,
         some ⟨true, ["Rubbish", "Wheelie bin or recycling bags"]⟩⟩ =
        Except.ok rd ∧
      (∀ b, b ∈ rd.bins ↔
        ∃ t ∈ ["Rubbish", "Wheelie bin or recycling bags"],
          collection_map t = some b) ∧
      ("Rubbish" ∈ ["Rubbish", "Wheelie bin or recycling bags"] →
        Bin.RUBBISH ∈ rd.bins) :=
  C1_parse_recognized_labels 2024
    ⟨some ⟨true, "Monday, 3 March (public holiday)"⟩,
     some ⟨true, ["Rubbish", "Wheelie bin or recycling bags"]⟩⟩
    ⟨true, "Monday, 3 March (public holiday)"⟩
    ⟨true, ["Rubbish", "Wheelie bin or recycling bags"]⟩ 3 3 rfl rfl rfl rfl
    (by decide) (by decide) (by decide)

/-- C3 counterexample: an input whose collection-items element is truthy
(it has contents, e.g. a stray text node) but contains no `li` item is NOT
rejected: `parse_response` succeeds and returns a `RubbishDay` whose bins
list is empty, contradicting the claimed non-emptiness invariant. -/
theorem C3_counterexample :
    parse_response 2024
      ⟨some ⟨true, "Monday,3March"⟩, some ⟨true, []⟩⟩ =
      Except.ok ⟨⟨2024, 3, 3, BIN_COLLECTION_TIME, 0, 0⟩, []⟩ := by
  rfl

/-- C3 amended: whenever the collection-items element contains at least one
`li` item, a successful `parse_response` returns a non-empty bins list; the
empty-bins outcome arises only from an items element with no `li` items at
all. -/
theorem C3_amended_nonempty_bins (y : Nat) (doc : HtmlDoc) (itag : ItemsTag)
    (rd : RubbishDay) (hi : doc.collectionItems = some itag)
    (hne : itag.liTexts ≠ []) (hok : parse_response y doc = Except.ok rd) :
    rd.bins ≠ [] := by
  rw [parse_response_ok_iff] at hok
  obtain ⟨dtag, itag', m, d, bins, _, _, hi', _, _, hbins, rfl⟩ := hok
  rw [hi] at hi'
  cases hi'
  cases hl : itag.liTexts with
  | nil => exact absurd hl hne
  | cons t rest =>
    rw [hl] at hbins
    simpa using mapBins_ok_ne_nil t rest bins hbins

/-- C3 amended witness: one recognised `li` item gives one bin. -/
theorem C3_amended_witness :
    (⟨⟨2024, 3, 3, BIN_COLLECTION_TIME, 0, 0⟩, [Bin.RUBBISH]⟩ :
      RubbishDay).bins ≠ [] :=
  C3_amended_nonempty_bins 2024
    ⟨some ⟨true, "Monday,3March"⟩, some ⟨true, ["Rubbish"]⟩⟩
    ⟨true, ["Rubbish"]⟩ _ rfl (by decide) rfl

/-- C4: every successful parse stamps the result with the current year, the
fixed 07:00 collection hour, zero minutes and seconds, and the month/day
that `strptime` extracted from the normalised date text; `parse_response`
takes no current-time input beyond the year, so the result is the same
whether or not that date is already past. -/
theorem C4_date_fields (y : Nat) (doc : HtmlDoc) (rd : RubbishDay)
    (hok : parse_response y doc = Except.ok rd) :
    rd.date.year = y ∧ rd.date.hour = BIN_COLLECTION_TIME ∧
    rd.date.minute = 0 ∧ rd.date.second = 0 ∧
    ∃ dtag, doc.collectionDate = some dtag ∧
      strptimeAdB (stripDateText dtag.text) =
        some (rd.date.month, rd.date.day) := by
  rw [parse_response_ok_iff] at hok
  obtain ⟨dtag, itag, m, d, bins, hd, _, _, _, hmd, _, rfl⟩ := hok
  exact ⟨rfl, rfl, rfl, rfl, dtag, hd, hmd⟩

/-- C4 witness: the specification's fixture parsed with current year 2024
gives 2024-03-03 07:00:00. -/
theorem C4_witness :
    (⟨⟨2024, 3, 3, BIN_COLLECTION_TIME, 0, 0⟩,
        [Bin.RUBBISH, Bin.RECYCLING_BAG]⟩ : RubbishDay).date.year = 2024 ∧
    (⟨⟨2024, 3, 3, BIN_COLLECTION_TIME, 0, 0⟩,
        [Bin.RUBBISH, Bin.RECYCLING_BAG]⟩ : RubbishDay).date.hour =
      BIN_COLLECTION_TIME ∧
    (⟨⟨2024, 3, 3, BIN_COLLECTION_TIME, 0, 0⟩,
        [Bin.RUBBISH, Bin.RECYCLING_BAG]⟩ : RubbishDay).date.minute = 0 ∧
    (⟨⟨2024, 3, 3, BIN_COLLECTION_TIME, 0, 0⟩,
        [Bin.RUBBISH, Bin.RECYCLING_BAG]⟩ : RubbishDay).date.second = 0 ∧
    ∃ dtag,
      (⟨some ⟨true, "Monday, 3 March (public holiday)"⟩,
        some ⟨true, ["Rubbish", "Wheelie bin or recycling bags"]⟩⟩ :
          HtmlDoc).collectionDate = some dtag ∧
      strptimeAdB (stripDateText dtag.text) = some (3, 3) :=
  C4_date_fields 2024
    ⟨some ⟨true, "Monday, 3 March (public holiday)"⟩,
     some ⟨true, ["Rubbish", "Wheelie bin or recycling bags"]⟩⟩
    ⟨⟨2024, 3, 3, BIN_COLLECTION_TIME, 0, 0⟩,
      [Bin.RUBBISH, Bin.RECYCLING_BAG]⟩ rfl

/-- C5 counterexample: the code does NOT strip all carriage-return
characters — `str.strip('\x7b'\r'\x7d')` touches only the two ends — so on the
date text `"Monday,<CR>3March"` the normalisation claimed by the
specification would yield the parseable `"Monday,3March"`, while the code
leaves the interior carriage return in place and raises the date
`ValueError` instead of returning a result. -/
theorem C5_counterexample :
    stripDateText "Monday,\r3March" = "Monday,\r3March" ∧
    claimNormalizeDate "Monday,\r3March" = "Monday,3March" ∧
    strptimeAdB (claimNormalizeDate "Monday,\r3March") = some (3, 3) ∧
    strptimeAdB (stripDateText "Monday,\r3March") = none ∧
    parse_response 2024
      ⟨some ⟨true, "Monday,\r3March"⟩, some ⟨true, ["Rubbish"]⟩⟩ =
      Except.error ParseErr.badDate :=
  ⟨rfl, rfl, rfl, rfl, rfl⟩

/-- C5 amended: the raw date text is normalised by removing every newline
and every space, stripping carriage returns from the two ends only (interior
carriage returns and other whitespace such as tabs survive), and discarding
everything from the first `(` onward — that is, by `stripDateText`; when the
normalised string does not match the weekday-comma-day-month pattern,
`parse_response` raises the fatal date parse error and returns no partial
result. -/
theorem C5_amended_date_pattern (y : Nat) (doc : HtmlDoc) (dtag : DateTag)
    (itag : ItemsTag)
    (hd : doc.collectionDate = some dtag) (hdn : dtag.nonempty = true)
    (hi : doc.collectionItems = some itag) (hin : itag.nonempty = true)
    (hbad : strptimeAdB (stripDateText dtag.text) = none) :
    parse_response y doc = Except.error ParseErr.badDate := by
  obtain ⟨cd, ci⟩ := doc
  cases hd
  cases hi
  simp [parse_response, hdn, hin, hbad]

/-- C5 amended witness: an interior carriage return defeats the pattern. -/
theorem C5_amended_witness :
    parse_response 2024
      ⟨some ⟨true, "Monday,\r3March(holiday)"⟩,
       some ⟨true, ["Glass crate"]⟩⟩ =
      Except.error ParseErr.badDate :=
  C5_amended_date_pattern 2024
    ⟨some ⟨true, "Monday,\r3March(holiday)"⟩, some ⟨true, ["Glass crate"]⟩⟩
    ⟨true, "Monday,\r3March(holiday)"⟩ ⟨true, ["Glass crate"]⟩
    rfl rfl rfl rfl (by decide)

/-- C6: if the required structure is present but some `li` item's exact
text is outside the three recognised labels, `parse_response` raises the
unknown-bin-type error (it formats the failed lookup, i.e. `None`), and no
`RubbishDay` is returned — the label is never skipped or defaulted. -/
theorem C6_unknown_label (y : Nat) (doc : HtmlDoc) (dtag : DateTag)
    (itag : ItemsTag) (m d : Nat)
    (hd : doc.collectionDate = some dtag) (hdn : dtag.nonempty = true)
    (hi : doc.collectionItems = some itag) (hin : itag.nonempty = true)
    (hdate : strptimeAdB (stripDateText dtag.text) = some (m, d))
    (hbad : ∃ t ∈ itag.liTexts, collection_map t = none) :
    parse_response y doc = Except.error (ParseErr.unknownBinType "None") := by
  obtain ⟨cd, ci⟩ := doc
  cases hd
  cases hi
  simp [parse_response, hdn, hin, hdate,
    mapBins_error_of_unknown itag.liTexts hbad]

/-- C6 witness: `"Garden waste"` is not a recognised label. -/
theorem C6_witness :
    parse_response 2024
      ⟨some ⟨true, "Monday,3March"⟩,
       some ⟨true, ["Rubbish", "Garden waste"]⟩⟩ =
      Except.error (ParseErr.unknownBinType "None") :=
  C6_unknown_label 2024
    ⟨some ⟨true, "Monday,3March"⟩,
     some ⟨true, ["Rubbish", "Garden waste"]⟩⟩
    ⟨true, "Monday,3March"⟩ ⟨true, ["Rubbish", "Garden waste"]⟩ 3 3
    rfl rfl rfl rfl (by decide) (by decide)

/-- C2: the notification decision computed from `remaining =
rubbish_day.date - now` is: no signal (returns `false` after switching the
LED off) whenever `remaining` exceeds the 16-hour remind window; otherwise
red for a recycling bag — including when a glass crate is also present,
since the recycling branch is tested first — else green for a glass crate,
else the raised `AssertionError`, never a silent no-op. -/
theorem C2_notification_decision (rd : RubbishDay) (now : Int) :
    (rd.date.toSec - now > (REMIND_HOURS_BEFORE : Int) * 3600 →
      set_led_appropriately rd now = (Except.ok false, [LedAction.off])) ∧
    (rd.date.toSec - now ≤ (REMIND_HOURS_BEFORE : Int) * 3600 →
      Bin.RECYCLING_BAG ∈ rd.bins →
      set_led_appropriately rd now =
        (Except.ok true, [LedAction.off, LedAction.red])) ∧
    (rd.date.toSec - now ≤ (REMIND_HOURS_BEFORE : Int) * 3600 →
      Bin.RECYCLING_BAG ∉ rd.bins → Bin.GLASS_CRATE ∈ rd.bins →
      set_led_appropriately rd now =
        (Except.ok true, [LedAction.off, LedAction.green])) ∧
    (rd.date.toSec - now ≤ (REMIND_HOURS_BEFORE : Int) * 3600 →
      Bin.RECYCLING_BAG ∉ rd.bins → Bin.GLASS_CRATE ∉ rd.bins →
      set_led_appropriately rd now =
        (Except.error PolicyErr.unreachable, [LedAction.off])) := by
  refine ⟨fun h => ?_, fun h hr => ?_, fun h hr hg => ?_, fun h hr hg => ?_⟩
  · simp [set_led_appropriately, h]
  · simp [set_led_appropriately, not_lt.mpr h, hr]
  · simp [set_led_appropriately, not_lt.mpr h, hr, hg]
  · simp [set_led_appropriately, not_lt.mpr h, hr, hg]

/-- C2 witness: both recycling bag and glass crate present, one second
before collection time — red (recycling) wins. -/
theorem C2_witness :
    set_led_appropriately
      ⟨⟨2024, 3, 3, BIN_COLLECTION_TIME, 0, 0⟩,
        [Bin.GLASS_CRATE, Bin.RECYCLING_BAG]⟩ 63845132399 =
      (Except.ok true, [LedAction.off, LedAction.red]) :=
  (C2_notification_decision
    ⟨⟨2024, 3, 3, BIN_COLLECTION_TIME, 0, 0⟩,
      [Bin.GLASS_CRATE, Bin.RECYCLING_BAG]⟩ 63845132399).2.1
    (by decide) (by decide)

/-- C7: the decision is monotonic in time: for a fixed event, if the run at
`now1` signals (returns `true`), then any later run at `now2 ≥ now1` does
the exact same thing — the decision can only move from "too early" to a
signalling state as `now` approaches the event, never back. -/
theorem C7_monotonic_in_time (rd : RubbishDay) (now1 now2 : Int)
    (h12 : now1 ≤ now2)
    (h1 : (set_led_appropriately rd now1).1 = Except.ok true) :
    set_led_appropriately rd now2 = set_led_appropriately rd now1 ∧
    (set_led_appropriately rd now2).1 = Except.ok true := by
  have hw1 : ¬ rd.date.toSec - now1 > (REMIND_HOURS_BEFORE : Int) * 3600 := by
    intro hgt
    simp only [set_led_appropriately] at h1
    rw [if_pos hgt] at h1
    exact absurd h1 (by simp)
  have hw2 : ¬ rd.date.toSec - now2 > (REMIND_HOURS_BEFORE : Int) * 3600 :=
    fun hgt => hw1 (lt_of_lt_of_le hgt (by omega))
  have heq : set_led_appropriately rd now2 = set_led_appropriately rd now1 := by
    simp only [set_led_appropriately, if_neg hw1, if_neg hw2]
  exact ⟨heq, heq ▸ h1⟩


/-- C7 witness: an event one second closer keeps signalling red. -/
theorem C7_witness :
    set_led_appropriately
        ⟨⟨2024, 3, 3, BIN_COLLECTION_TIME, 0, 0⟩, [Bin.RECYCLING_BAG]⟩
        63845132401 =
      set_led_appropriately
        ⟨⟨2024, 3, 3, BIN_COLLECTION_TIME, 0, 0⟩, [Bin.RECYCLING_BAG]⟩
        63845132400 ∧
    (set_led_appropriately
        ⟨⟨2024, 3, 3, BIN_COLLECTION_TIME, 0, 0⟩, [Bin.RECYCLING_BAG]⟩
        63845132401).1 = Except.ok true :=
  C7_monotonic_in_time
    ⟨⟨2024, 3, 3, BIN_COLLECTION_TIME, 0, 0⟩, [Bin.RECYCLING_BAG]⟩
    63845132400 63845132401 (by decide) rfl

/-- A raised `AssertionError` in `set_led_appropriately` happens after the
initial `turn_off`, so its action trace is exactly one switch-off. -/
theorem set_led_error_trace (rd : RubbishDay) (now : Int) (e : PolicyErr)
    (tr : List LedAction)
    (hs : set_led_appropriately rd now = (Except.error e, tr)) :
    tr = [LedAction.off] := by
  simp only [set_led_appropriately] at hs
  by_cases h1 : rd.date.toSec - now > (REMIND_HOURS_BEFORE : Int) * 3600
  · rw [if_pos h1] at hs
    exact absurd hs (by simp)
  · rw [if_neg h1] at hs
    by_cases h2 : Bin.RECYCLING_BAG ∈ rd.bins
    · rw [if_pos h2] at hs
      exact absurd hs (by simp)
    · rw [if_neg h2] at hs
      by_cases h3 : Bin.GLASS_CRATE ∈ rd.bins
      · rw [if_pos h3] at hs
        exact absurd hs (by simp)
      · rw [if_neg h3] at hs
        injection hs with _ h
        exact h.symm

/-- `main` on a falsy configuration: config error, no events. -/
theorem main_eq_config (sid sname : Option String) (fr : FetchResult)
    (y : Nat) (now : Int)
    (h : (truthyEnv sid && truthyEnv sname) = false) :
    Prog.main sid sname fr y now = (Except.error MainErr.config, []) := by
  simp [Prog.main, h]

/-- `main` on a failed network call: transport error after the fetch. -/
theorem main_eq_transport (sid sname : Option String) (y : Nat) (now : Int)
    (h : (truthyEnv sid && truthyEnv sname) = true) :
    Prog.main sid sname FetchResult.transportError y now =
      (Except.error MainErr.transport, [Event.fetchCall]) := by
  simp [Prog.main, h]

/-- `main` when parsing raises: the parse error propagates; the only event
is the fetch. -/
theorem main_eq_parse_error (sid sname : Option String) (doc : HtmlDoc)
    (y : Nat) (now : Int) (e : ParseErr)
    (h : (truthyEnv sid && truthyEnv sname) = true)
    (hp : parse_response y doc = Except.error e) :
    Prog.main sid sname (FetchResult.ok doc) y now =
      (Except.error (MainErr.parse e), [Event.fetchCall]) := by
  simp [Prog.main, h, hp]

/-- `main` when the notification policy raises. -/
theorem main_eq_policy (sid sname : Option String) (doc : HtmlDoc)
    (y : Nat) (now : Int) (rd : RubbishDay) (e : PolicyErr)
    (tr : List LedAction)
    (h : (truthyEnv sid && truthyEnv sname) = true)
    (hp : parse_response y doc = Except.ok rd)
    (hs : set_led_appropriately rd now = (Except.error e, tr)) :
    Prog.main sid sname (FetchResult.ok doc) y now =
      (Except.error (MainErr.policy e),
        Event.fetchCall :: tr.map Event.led) := by
  simp [Prog.main, h, hp, hs]

/-- `main` on a run that raises nothing. -/
theorem main_eq_ok (sid sname : Option String) (doc : HtmlDoc)
    (y : Nat) (now : Int) (rd : RubbishDay) (b : Bool)
    (tr : List LedAction)
    (h : (truthyEnv sid && truthyEnv sname) = true)
    (hp : parse_response y doc = Except.ok rd)
    (hs : set_led_appropriately rd now = (Except.ok b, tr)) :
    Prog.main sid sname (FetchResult.ok doc) y now =
      (Except.ok (if b then 0 else 1),
        Event.fetchCall :: tr.map Event.led) := by
  simp [Prog.main, h, hp, hs]

/-- C8 counterexample: a run whose network call fails performs no LED
action at all, so a stale red from a previous run stays lit through the
error exit — the claimed reset-on-every-exit-path does not hold. -/
theorem C8_counterexample :
    (Prog.main (some "1") (some "x") FetchResult.transportError 2024 0).1 =
      Except.error MainErr.transport ∧
    runLeds ⟨true, false⟩
      (ledTrace (Prog.main (some "1") (some "x") FetchResult.transportError
        2024 0).2) = ⟨true, false⟩ :=
  ⟨rfl, rfl⟩

/-- C8 amended: the LED is switched off at the start of
`set_led_appropriately`, so every run that reaches the notification policy
— including the run that dies with the policy `AssertionError` — leaves the
pins reset (or deliberately set); but a run failing earlier, on
configuration, transport or parsing, performs no LED action and leaves
whatever pin state was there before. -/
theorem C8_led_reset_on_exit_paths (sid sname : Option String)
    (fr : FetchResult) (y : Nat) (now : Int) (init : PinState) :
    (∀ e, (Prog.main sid sname fr y now).1 =
        Except.error (MainErr.policy e) →
      runLeds init (ledTrace (Prog.main sid sname fr y now).2) =
        ⟨false, false⟩) ∧
    ((Prog.main sid sname fr y now).1 = Except.error MainErr.config →
      ledTrace (Prog.main sid sname fr y now).2 = []) ∧
    ((Prog.main sid sname fr y now).1 = Except.error MainErr.transport →
      ledTrace (Prog.main sid sname fr y now).2 = []) ∧
    (∀ pe, (Prog.main sid sname fr y now).1 =
        Except.error (MainErr.parse pe) →
      ledTrace (Prog.main sid sname fr y now).2 = []) := by
  cases hcfg : truthyEnv sid && truthyEnv sname with
  | false =>
    rw [main_eq_config sid sname fr y now hcfg]
    simp [ledTrace]
  | true =>
    cases fr with
    | transportError =>
      rw [main_eq_transport sid sname y now hcfg]
      simp [ledTrace]
    | ok doc =>
      cases hp : parse_response y doc with
      | error e =>
        rw [main_eq_parse_error sid sname doc y now e hcfg hp]
        simp [ledTrace]
      | ok rd =>
        rcases hs : set_led_appropriately rd now with ⟨res, tr⟩
        cases res with
        | error e =>
          have htr := set_led_error_trace rd now e tr hs
          subst htr
          rw [main_eq_policy sid sname doc y now rd e _ hcfg hp hs]
          simp [ledTrace, runLeds, applyLed]
        | ok b =>
          rw [main_eq_ok sid sname doc y now rd b tr hcfg hp hs]
          simp [ledTrace]

/-- C8 amended witness: the policy-failure run (rubbish-only bins, inside
the remind window) leaves both pins low even from a both-lit start. -/
theorem C8_amended_witness :
    runLeds ⟨true, true⟩
      (ledTrace (Prog.main (some "1") (some "x")
        (FetchResult.ok
          ⟨some ⟨true, "Monday,3March"⟩, some ⟨true, ["Rubbish"]⟩⟩)
        2024 63845132400).2) = ⟨false, false⟩ :=
  (C8_led_reset_on_exit_paths (some "1") (some "x")
    (FetchResult.ok ⟨some ⟨true, "Monday,3March"⟩, some ⟨true, ["Rubbish"]⟩⟩)
    2024 63845132400 ⟨true, true⟩).1 PolicyErr.unreachable rfl

/-- C9: a run that completes without raising returns 0 exactly when the
LED was set (the decision signalled) and 1 exactly when the policy declined
("bin day is still a way away"); a falsy configuration, a failed transport,
a parse exception or the policy assertion instead surface as an error
result, the model of an abnormal, non-zero process termination. -/
theorem C9_exit_codes (sid sname : Option String) (fr : FetchResult)
    (y : Nat) (now : Int) :
    (∀ n, (Prog.main sid sname fr y now).1 = Except.ok n →
      ∃ doc rd tr b, fr = FetchResult.ok doc ∧
        parse_response y doc = Except.ok rd ∧
        set_led_appropriately rd now = (Except.ok b, tr) ∧
        n = if b then 0 else 1) ∧
    ((truthyEnv sid && truthyEnv sname) = true →
      ∀ doc rd tr b, fr = FetchResult.ok doc →
        parse_response y doc = Except.ok rd →
        set_led_appropriately rd now = (Except.ok b, tr) →
        (Prog.main sid sname fr y now).1 =
          Except.ok (if b then 0 else 1)) ∧
    ((truthyEnv sid && truthyEnv sname) = false →
      (Prog.main sid sname fr y now).1 = Except.error MainErr.config) ∧
    ((truthyEnv sid && truthyEnv sname) = true →
      fr = FetchResult.transportError →
      (Prog.main sid sname fr y now).1 = Except.error MainErr.transport) ∧
    ((truthyEnv sid && truthyEnv sname) = true →
      ∀ doc e, fr = FetchResult.ok doc →
        parse_response y doc = Except.error e →
        (Prog.main sid sname fr y now).1 =
          Except.error (MainErr.parse e)) ∧
    ((truthyEnv sid && truthyEnv sname) = true →
      ∀ doc rd e tr, fr = FetchResult.ok doc →
        parse_response y doc = Except.ok rd →
        set_led_appropriately rd now = (Except.error e, tr) →
        (Prog.main sid sname fr y now).1 =
          Except.error (MainErr.policy e)) := by
  cases hcfg : truthyEnv sid && truthyEnv sname with
  | false =>
    rw [main_eq_config sid sname fr y now hcfg]
    simp [hcfg]
  | true =>
    cases fr with
    | transportError =>
      rw [main_eq_transport sid sname y now hcfg]
      simp [hcfg]
    | ok doc =>
      cases hp : parse_response y doc with
      | error e =>
        have hmain := main_eq_parse_error sid sname doc y now e hcfg hp
        refine ⟨?_, ?_, ?_, ?_, ?_, ?_⟩
        · intro n hn
          rw [hmain] at hn
          exact absurd hn (by simp)
        · intro _ doc' rd' tr' b' hfr hp' _
          injection hfr with hdoc
          subst hdoc
          rw [hp] at hp'
          exact absurd hp' (by simp)
        · intro hfalse
          exact absurd hfalse (by simp)
        · intro _ hfr
          exact absurd hfr (by simp)
        · intro _ doc' e' hfr hp'
          injection hfr with hdoc
          subst hdoc
          rw [hp] at hp'
          injection hp' with he
          subst he
          rw [hmain]
        · intro _ doc' rd' e' tr' hfr hp' _
          injection hfr with hdoc
          subst hdoc
          rw [hp] at hp'
          exact absurd hp' (by simp)
      | ok rd =>
        rcases hs : set_led_appropriately rd now with ⟨res, tr⟩
        cases res with
        | error e =>
          have hmain := main_eq_policy sid sname doc y now rd e tr hcfg hp hs
          refine ⟨?_, ?_, ?_, ?_, ?_, ?_⟩
          · intro n hn
            rw [hmain] at hn
            exact absurd hn (by simp)
          · intro _ doc' rd' tr' b' hfr hp' hs'
            injection hfr with hdoc
            subst hdoc
            rw [hp] at hp'
            injection hp' with hrd
            subst hrd
            rw [hs] at hs'
            exact absurd hs' (by simp)
          · intro hfalse
            exact absurd hfalse (by simp)
          · intro _ hfr
            exact absurd hfr (by simp)
          · intro _ doc' e' hfr hp'
            injection hfr with hdoc
            subst hdoc
            rw [hp] at hp'
            exact absurd hp' (by simp)
          · intro _ doc' rd' e' tr' hfr hp' hs'
            injection hfr with hdoc
            subst hdoc
            rw [hp] at hp'
            injection hp' with hrd
            subst hrd
            rw [hs] at hs'
            injection hs' with he htr
            injection he with he'
            subst he'
            rw [hmain]
        | ok b =>
          have hmain := main_eq_ok sid sname doc y now rd b tr hcfg hp hs
          refine ⟨?_, ?_, ?_, ?_, ?_, ?_⟩
          · intro n hn
            rw [hmain] at hn
            exact ⟨doc, rd, tr, b, rfl, hp, hs,
              (Except.ok.inj hn).symm⟩
          · intro _ doc' rd' tr' b' hfr hp' hs'
            injection hfr with hdoc
            subst hdoc
            rw [hp] at hp'
            injection hp' with hrd
            subst hrd
            rw [hs] at hs'
            injection hs' with hb htr
            injection hb with hb'
            subst hb'
            rw [hmain]
          · intro hfalse
            exact absurd hfalse (by simp)
          · intro _ hfr
            exact absurd hfr (by simp)
          · intro _ doc' e hfr hp'
            injection hfr with hdoc
            subst hdoc
            rw [hp] at hp'
            exact absurd hp' (by simp)
          · intro _ doc' rd' e tr' hfr hp' hs'
            injection hfr with hdoc
            subst hdoc
            rw [hp] at hp'
            injection hp' with hrd
            subst hrd
            rw [hs] at hs'
            exact absurd hs' (by simp)

/-- C9 witness: a fully successful signalling run exits with code 0. -/
theorem C9_witness :
    (Prog.main (some "1") (some "x")
      (FetchResult.ok ⟨some ⟨true, "Monday,3March"⟩,
        some ⟨true, ["Wheelie bin or recycling bags"]⟩⟩)
      2024 63845132400).1 = Except.ok 0 :=
  (C9_exit_codes (some "1") (some "x")
    (FetchResult.ok ⟨some ⟨true, "Monday,3March"⟩,
      some ⟨true, ["Wheelie bin or recycling bags"]⟩⟩)
    2024 63845132400).2.1 rfl
    ⟨some ⟨true, "Monday,3March"⟩,
      some ⟨true, ["Wheelie bin or recycling bags"]⟩⟩
    ⟨⟨2024, 3, 3, BIN_COLLECTION_TIME, 0, 0⟩, [Bin.RECYCLING_BAG]⟩
    [LedAction.off, LedAction.red] true rfl rfl rfl

/-- C10: a missing or empty `STREET_ID` or `STREET_NAME` fails the
truthiness guard — `all(env for env in (STREET_ID, STREET_NAME))` treats
the empty string exactly like an absent variable — so `main` raises the
configuration `RuntimeError` and the run's event trace is empty: in
particular no network call (`fetchCall`) is ever attempted. -/
theorem C10_config_guard (sid sname : Option String) (fr : FetchResult)
    (y : Nat) (now : Int)
    (h : sid = none ∨ sid = some "" ∨ sname = none ∨ sname = some "") :
    Prog.main sid sname fr y now = (Except.error MainErr.config, []) := by
  have hor : truthyEnv sid = false ∨ truthyEnv sname = false := by
    rcases h with rfl | rfl | rfl | rfl
    · exact Or.inl rfl
    · exact Or.inl rfl
    · exact Or.inr rfl
    · exact Or.inr rfl
  have hcfg : (truthyEnv sid && truthyEnv sname) = false := by
    rcases hor with h' | h' <;> simp [h']
  simp [Prog.main, hcfg]

/-- C10 witness: an empty `STREET_NAME` aborts before any fetch. -/
theorem C10_witness :
    Prog.main (some "123") (some "") FetchResult.transportError 2024 0 =
      (Except.error MainErr.config, []) :=
  C10_config_guard (some "123") (some "") FetchResult.transportError 2024 0
    (Or.inr (Or.inr (Or.inr rfl)))
